import Mathlib

set_option linter.unusedVariables false

/-!
Verification of the soil-wss application core (`src/app.py`) against its
design specification.  The relevant program fragments are shallowly embedded
below: the USDA-style texture classifier `determine_soil_type`, the sample
generator `genSample` (from `generate_soil_data`), the spatial filter
`points_in_polygon` / `filterByRegion` (from `PolygonAnalyzer` and `main`),
and the report aggregation `summarize` / `overall_bounds` (from
`generate_pdf_report`).  Percentages and coordinates are modelled as exact
rationals (the Python code mixes ints and floats; all constants appearing in
the relevant code paths are exactly representable).
-/

namespace SoilWSS

/-- Texture classes returned by the classifier.  The Python code uses Persian
string labels; the correspondence is: `sandy` = "شنی", `sandyLoam` = "لوم شنی",
`clay` = "رسی", `clayLoam` = "رسی لومی", `siltLoam` = "لوم سیلتی",
`loam` = "لوم". -/
inductive SoilType where
  | sandy
  | sandyLoam
  | clay
  | clayLoam
  | siltLoam
  | loam
deriving DecidableEq, Repr

/-- Embedding of `determine_soil_type(sand, silt, clay)` (src/app.py lines
127-142): the ordered if/elif ladder, translated condition by condition.
Note the Python function performs no validation of the composition sum. -/
def determine_soil_type (sand silt clay : ℚ) : SoilType :=
  if sand > 85 ∧ silt + 1.5 * clay < 15 then .sandy
  else if sand ≥ 70 ∧ sand ≤ 85 ∧ silt + 1.5 * clay < 15 then .sandyLoam
  else if clay ≥ 40 ∧ sand ≤ 45 ∧ silt ≤ 40 then .clay
  else if clay ≥ 27 ∧ clay < 40 ∧ sand ≤ 20 then .clayLoam
  else if sand < 50 ∧ silt ≥ 28 ∧ silt < 50 ∧ clay < 27 then .siltLoam
  else if sand ≥ 23 ∧ sand < 52 ∧ silt ≥ 28 ∧ silt < 50 ∧
          clay ≥ 7 ∧ clay < 27 then .loam
  else .loam

/-- The condition of ladder rule 1 (Sandy), named for stating theorems. -/
def rule1Cond (sand silt clay : ℚ) : Prop := sand > 85 ∧ silt + 1.5 * clay < 15

/-- The condition of ladder rule 2 (Sandy Loam). -/
def rule2Cond (sand silt clay : ℚ) : Prop :=
  sand ≥ 70 ∧ sand ≤ 85 ∧ silt + 1.5 * clay < 15

/-- The condition of ladder rule 3 (Clay). -/
def rule3Cond (sand silt clay : ℚ) : Prop := clay ≥ 40 ∧ sand ≤ 45 ∧ silt ≤ 40

/-- The condition of ladder rule 4 (Clay Loam). -/
def rule4Cond (sand silt clay : ℚ) : Prop := clay ≥ 27 ∧ clay < 40 ∧ sand ≤ 20

/-- The condition of ladder rule 5 (Silt Loam). -/
def rule5Cond (sand silt clay : ℚ) : Prop :=
  sand < 50 ∧ silt ≥ 28 ∧ silt < 50 ∧ clay < 27

/-- The condition of ladder rule 6 (Loam). -/
def rule6Cond (sand silt clay : ℚ) : Prop :=
  sand ≥ 23 ∧ sand < 52 ∧ silt ≥ 28 ∧ silt < 50 ∧ clay ≥ 7 ∧ clay < 27

/-- The six texture classes of the taxonomy (`AppConfig.SOIL_TAXONOMY`). -/
def allSoilTypes : List SoilType :=
  [.sandy, .sandyLoam, .clay, .clayLoam, .siltLoam, .loam]

/-- The spec's classification procedure, written the way section 4.1 words
it: an explicit ordered list of (predicate, class) rules evaluated in
sequence, first-match-wins, with a trailing Loam default (rule 7).  This is
the second, spec-side definition used for the refinement claim C4. -/
def specRules : List ((ℚ → ℚ → ℚ → Bool) × SoilType) :=
  [ (fun s si c => decide (s > 85 ∧ si + 1.5 * c < 15), .sandy),
    (fun s si c => decide (70 ≤ s ∧ s ≤ 85 ∧ si + 1.5 * c < 15), .sandyLoam),
    (fun s si c => decide (c ≥ 40 ∧ s ≤ 45 ∧ si ≤ 40), .clay),
    (fun s si c => decide (27 ≤ c ∧ c < 40 ∧ s ≤ 20), .clayLoam),
    (fun s si c => decide (s < 50 ∧ 28 ≤ si ∧ si < 50 ∧ c < 27), .siltLoam),
    (fun s si c => decide (23 ≤ s ∧ s < 52 ∧ 28 ≤ si ∧ si < 50 ∧
                           7 ≤ c ∧ c < 27), .loam) ]

/-- First-match-wins evaluation of an ordered rule list, defaulting to Loam
(spec rule 7). -/
def firstMatch : List ((ℚ → ℚ → ℚ → Bool) × SoilType) → ℚ → ℚ → ℚ → SoilType
  | [], _, _, _ => .loam
  | (p, t) :: rest, s, si, c => if p s si c then t else firstMatch rest s si c

/-- The spec's `classify`, as the ordered decision procedure of section 4.1. -/
def spec_classify (s si c : ℚ) : SoilType := firstMatch specRules s si c

/-- A soil sample row as built by `generate_soil_data` (src/app.py lines
113-124).  Field names translate the Persian column labels: `soil_type` =
"نوع خاک", `acidity` = "میزان اسیدیته", `conductivity` is the numeric content
of the "هدایت الکتریکی" string (formatted to one decimal), `depth` the numeric
content of the "عمق خاک" string.  The "رنگ" colour column is presentation data
determined by `soil_type` and is not modelled. -/
structure Sample where
  lat : ℚ
  lon : ℚ
  soil_type : SoilType
  acidity : ℚ
  conductivity : ℚ
  depth : ℤ
  sand : ℚ
  silt : ℚ
  clay : ℚ
deriving DecidableEq, Repr

/-- Embedding of one iteration of the loop in `generate_soil_data`
(src/app.py lines 99-125).  The random draws are passed in as parameters:
`sand = np.random.randint(0, 100)` (so `sand < 100`) and
`silt = np.random.randint(0, 100 - sand)` (so `silt < 100 - sand`);
`latOff`/`lonOff` are the `uniform(-0.15, 0.15)` offsets and `acid`, `ec`,
`depth` the remaining draws.  `clay = 100 - sand - silt` and the stored class
is `determine_soil_type(sand, silt, clay)`. -/
def genSample (sand silt : ℕ) (latOff lonOff acid ec : ℚ) (depth : ℤ) : Sample :=
  let clay : ℚ := 100 - (sand : ℚ) - (silt : ℚ)
  { lat := 35.8400 + latOff
    lon := 50.9391 + lonOff
    soil_type := determine_soil_type (sand : ℚ) (silt : ℚ) clay
    acidity := acid
    conductivity := ec
    depth := depth
    sand := (sand : ℚ)
    silt := (silt : ℚ)
    clay := clay }

/-- Modelled from the spec: the point-in-polygon primitive.  The source
delegates this to the third-party shapely library
(`Point(p).within(Polygon(polygon_coords))`, src/app.py lines 150-151), whose
code is not part of this repository; section 4.2 describes it as "a standard
point-in-polygon test (ray casting or winding number) treating the region as
a simple polygon".  This is the standard even-odd ray-casting test: a point
is inside iff a horizontal ray to the right crosses an odd number of polygon
edges (points on an edge are implementation-defined per the spec). -/
def pointInPolygonRC (pt : ℚ × ℚ) (poly : List (ℚ × ℚ)) : Bool :=
  let edges := poly.zip (poly.drop 1 ++ poly.take 1)
  edges.foldl
    (fun acc e =>
      let x := pt.1
      let y := pt.2
      let xi := e.1.1
      let yi := e.1.2
      let xj := e.2.1
      let yj := e.2.2
      if ((yi > y) ≠ (yj > y)) ∧ x < (xj - xi) * (y - yi) / (yj - yi) + xi
      then !acc else acc)
    false

/-- Embedding of `PolygonAnalyzer.points_in_polygon(points, polygon_coords)`
(src/app.py lines 148-151).  Faithful to the source, each test point is built
as `Point(p)` for `p in zip(points.lat, points.lon)` — i.e. in (lat, lon)
axis order — while `polygon_coords` arrives from the drawing widget in
(lon, lat) order. -/
def points_in_polygon (points : List Sample) (polygon_coords : List (ℚ × ℚ)) :
    List Bool :=
  points.map (fun p => pointInPolygonRC (p.lat, p.lon) polygon_coords)

/-- Error raised for a degenerate region (spec section 7, `InvalidRegionError`). -/
inductive RegionError where
  | invalidRegion
deriving DecidableEq, Repr

/-- The region-filter operation: `Polygon(polygon_coords)` construction
followed by the boolean-mask selection `df[df["در محدوده"]]` of src/app.py
lines 341-342.  The mask selection keeps exactly the rows whose test is true,
in their original order, which is `List.filter`.  The vertex-count check is
modelled from the spec: the shapely `Polygon` constructor (third-party, not
in this repository) rejects a ring of fewer than 3 coordinates, which the
spec names `InvalidRegionError`. -/
def filterByRegion (samples : List Sample) (region : List (ℚ × ℚ)) :
    Except RegionError (List Sample) :=
  if region.length < 3 then .error .invalidRegion
  else .ok (samples.filter (fun p => pointInPolygonRC (p.lat, p.lon) region))

/-- Mean of a list of rationals as pandas `Series.mean` behaves: the empty
mean is NaN, modelled as `none`; otherwise `some (sum / length)`. -/
def meanOpt (l : List ℚ) : Option ℚ :=
  if l = [] then none else some (l.sum / l.length)

/-- The report header's geographic bounds (src/app.py line 175):
`(data['lat'].mean(), data['lon'].mean())`.  The code performs no emptiness
check; on an empty input pandas yields NaN (`none`) for each mean. -/
def overall_bounds (samples : List Sample) : Option ℚ × Option ℚ :=
  (meanOpt (samples.map Sample.lat), meanOpt (samples.map Sample.lon))

/-- Distinct elements of a list in order of first occurrence, as pandas
`Series.unique()` returns them (src/app.py line 179). -/
def uniqueFirst {α : Type} [DecidableEq α] (l : List α) : List α :=
  l.foldl (fun acc a => if a ∈ acc then acc else acc ++ [a]) []

/-- Per-class summary row of the report table (src/app.py lines 178-186):
the group's size and the means of acidity, conductivity and depth over the
group (`subset[...].mean()`; the conductivity and depth values are the exact
numeric contents recovered by the regex extraction from the stored strings). -/
structure ClassSummary where
  count : ℕ
  mean_acidity : ℚ
  mean_conductivity : ℚ
  mean_depth : ℚ
deriving DecidableEq, Repr

/-- Mean over a (nonempty, when used) group column. -/
def groupMean (l : List ℚ) : ℚ := l.sum / l.length

/-- The aggregation loop of `generate_pdf_report` (src/app.py lines 178-186):
for each soil type in `selected_area_data["نوع خاک"].unique()` (first
occurrence order), take the subset of rows with that stored type and emit its
summary row. -/
def summarize (samples : List Sample) : List (SoilType × ClassSummary) :=
  (uniqueFirst (samples.map Sample.soil_type)).map (fun t =>
    let g := samples.filter (fun s => s.soil_type = t)
    (t, { count := g.length
          mean_acidity := groupMean (g.map Sample.acidity)
          mean_conductivity := groupMean (g.map Sample.conductivity)
          mean_depth := groupMean (g.map (fun s => (s.depth : ℚ))) }))

/-- A region a user could draw over the sample area, as the drawing widget
reports it: (longitude, latitude) vertex pairs.  The generator scatters
samples around lat 35.84, lon 50.94, so this square (lon 50.8-51, lat
35.8-36) covers part of the sample area. -/
def demoRegion : List (ℚ × ℚ) := [(50.8, 35.8), (51, 35.8), (51, 36), (50.8, 36)]

/-- A sample located at lat 35.9, lon 50.9 — inside `demoRegion` when the
test point is formed in the region's own (lon, lat) axis order. -/
def demoSample : Sample :=
  { lat := 35.9, lon := 50.9, soil_type := .clay, acidity := 7,
    conductivity := 2, depth := 100, sand := 10, silt := 10, clay := 80 }

/-- Three Clay samples with acidity 6.0, 7.0, 8.0 (the section 8 aggregation
example). -/
def clay3 : List Sample :=
  [ { lat := 35.9, lon := 50.9, soil_type := .clay, acidity := 6,
      conductivity := 2, depth := 100, sand := 10, silt := 10, clay := 80 },
    { lat := 35.9, lon := 50.9, soil_type := .clay, acidity := 7,
      conductivity := 2, depth := 100, sand := 10, silt := 10, clay := 80 },
    { lat := 35.9, lon := 50.9, soil_type := .clay, acidity := 8,
      conductivity := 2, depth := 100, sand := 10, silt := 10, clay := 80 } ]

/-- Every branch of the classifier ladder returns one of the six taxonomy
classes, with no validation performed on the way in. -/
theorem classify_total_cases (s si c : ℚ) :
    determine_soil_type s si c ∈ allSoilTypes := by
  unfold determine_soil_type allSoilTypes
  split_ifs <;> simp

/-- The classifier ladder agrees everywhere with the spec's ordered
first-match-wins rule list. -/
theorem classify_eq_spec (s si c : ℚ) :
    determine_soil_type s si c = spec_classify s si c := by
  unfold determine_soil_type spec_classify specRules
  simp only [firstMatch, decide_eq_true_eq, ge_iff_le]

/-- Inputs meeting rule 5's bounds are classified Silt Loam: rules 1-4
cannot fire there, and rule 5 precedes rule 6 in the ladder. -/
theorem shadow_silt_loam (s si c : ℚ) (hs : s < 50) (h28 : 28 ≤ si)
    (h50 : si < 50) (h7 : 7 ≤ c) (h27 : c < 27) :
    determine_soil_type s si c = SoilType.siltLoam := by
  unfold determine_soil_type
  split_ifs with h1 h2 h3 h4 h5 h6
  · exact absurd h1.1 (by linarith)
  · exact absurd h2.1 (by linarith)
  · exact absurd h3.1 (by linarith)
  · exact absurd h4.1 (by linarith)
  · rfl
  · exact absurd ⟨hs, h28, h50, h27⟩ h5
  · exact absurd ⟨hs, h28, h50, h27⟩ h5

/-- A Loam verdict comes either from rule 6 with sand in [50, 52) or from
the rule-7 default (no rule condition holding). -/
theorem shadow_loam_source (s si c : ℚ)
    (h : determine_soil_type s si c = SoilType.loam) :
    (50 ≤ s ∧ s < 52 ∧ 28 ≤ si ∧ si < 50 ∧ 7 ≤ c ∧ c < 27) ∨
    (¬ rule1Cond s si c ∧ ¬ rule2Cond s si c ∧ ¬ rule3Cond s si c ∧
     ¬ rule4Cond s si c ∧ ¬ rule5Cond s si c ∧ ¬ rule6Cond s si c) := by
  unfold determine_soil_type at h
  split_ifs at h with h1 h2 h3 h4 h5 h6
  · obtain ⟨h23, h52, h28, h50, h7, h27⟩ := h6
    left
    refine ⟨?_, h52, h28, h50, h7, h27⟩
    by_contra hlt
    push_neg at hlt
    exact h5 ⟨hlt, h28, h50, h27⟩
  · exact Or.inr ⟨h1, h2, h3, h4, h5, h6⟩

/-- Folding the first-occurrence deduplication step preserves exactly the
members of the accumulator and the remaining list. -/
theorem mem_foldl_upd {α : Type} [DecidableEq α] (l : List α) (acc : List α)
    (a : α) :
    a ∈ l.foldl (fun acc x => if x ∈ acc then acc else acc ++ [x]) acc ↔
      a ∈ acc ∨ a ∈ l := by
  induction l generalizing acc with
  | nil => simp
  | cons x xs ih =>
    simp only [List.foldl_cons]
    rw [ih]
    by_cases hx : x ∈ acc
    · simp only [if_pos hx, List.mem_cons]
      constructor
      · rintro (h | h)
        · exact Or.inl h
        · exact Or.inr (Or.inr h)
      · rintro (h | rfl | h)
        · exact Or.inl h
        · exact Or.inl hx
        · exact Or.inr h
    · simp only [if_neg hx, List.mem_append, List.mem_singleton, List.mem_cons]
      tauto

/-- The pandas-style `unique()` keeps exactly the elements of its input. -/
theorem uniqueFirst_mem {α : Type} [DecidableEq α] (l : List α) (a : α) :
    a ∈ uniqueFirst l ↔ a ∈ l := by
  unfold uniqueFirst
  rw [mem_foldl_upd]
  simp

/-- Every row of the summary describes the group of samples whose stored
class is its key: the count is the group size, positive, and each of the
three means (acidity, conductivity, depth) times the count recovers the
corresponding group sum. -/
theorem summarize_sound (samples : List Sample) (hne : samples ≠ [])
    (t : SoilType) (summ : ClassSummary)
    (hmem : (t, summ) ∈ summarize samples) :
    0 < summ.count ∧
    summ.count = (samples.filter (fun s => s.soil_type = t)).length ∧
    summ.mean_acidity * (summ.count : ℚ) =
      ((samples.filter (fun s => s.soil_type = t)).map Sample.acidity).sum ∧
    summ.mean_conductivity * (summ.count : ℚ) =
      ((samples.filter (fun s => s.soil_type = t)).map
        Sample.conductivity).sum ∧
    summ.mean_depth * (summ.count : ℚ) =
      ((samples.filter (fun s => s.soil_type = t)).map
        (fun s => (s.depth : ℚ))).sum := by
  unfold summarize at hmem
  rw [List.mem_map] at hmem
  obtain ⟨t', ht', heq⟩ := hmem
  rw [Prod.mk.injEq] at heq
  obtain ⟨rfl, rfl⟩ := heq
  rw [uniqueFirst_mem] at ht'
  rw [List.mem_map] at ht'
  obtain ⟨s0, hs0, hst⟩ := ht'
  have hfil : s0 ∈ samples.filter (fun s => s.soil_type = t') := by
    rw [List.mem_filter]
    exact ⟨hs0, by simp [hst]⟩
  have hlen : 0 < (samples.filter (fun s => s.soil_type = t')).length :=
    List.length_pos.mpr (List.ne_nil_of_mem hfil)
  have hcast : ((samples.filter (fun s => s.soil_type = t')).length : ℚ) ≠ 0 :=
    Nat.cast_ne_zero.mpr (Nat.pos_iff_ne_zero.mp hlen)
  refine ⟨hlen, rfl, ?_, ?_, ?_⟩ <;>
    (dsimp only; unfold groupMean;
     rw [List.length_map, div_mul_cancel₀]; exact hcast)

/-- A class appears in the summary exactly when some sample carries it: no
absent class gets a row, and no present class is dropped. -/
theorem summarize_complete (samples : List Sample) (t : SoilType) :
    (∃ summ, (t, summ) ∈ summarize samples) ↔
      t ∈ samples.map Sample.soil_type := by
  constructor
  · rintro ⟨summ, hmem⟩
    unfold summarize at hmem
    rw [List.mem_map] at hmem
    obtain ⟨t', ht', heq⟩ := hmem
    rw [Prod.mk.injEq] at heq
    obtain ⟨rfl, -⟩ := heq
    exact (uniqueFirst_mem _ _).mp ht'
  · intro hmem
    unfold summarize
    exact ⟨_, List.mem_map.mpr ⟨t, (uniqueFirst_mem _ _).mpr hmem, rfl⟩⟩

/-- On a valid region the filter succeeds with a sublist of its input. -/
theorem filter_ok (S : List Sample) (R : List (ℚ × ℚ)) (h : 3 ≤ R.length) :
    ∃ out, filterByRegion S R = Except.ok out ∧ out.Sublist S := by
  unfold filterByRegion
  rw [if_neg (by omega)]
  exact ⟨_, rfl, List.filter_sublist _⟩

/-- Filtering no samples through a valid region yields no samples. -/
theorem filter_empty (R : List (ℚ × ℚ)) (h : 3 ≤ R.length) :
    filterByRegion [] R = Except.ok [] := by
  unfold filterByRegion
  rw [if_neg (by omega)]
  rfl

/-- Any sample the filter returns was among the samples given to it. -/
theorem filter_mem (S out : List Sample) (R : List (ℚ × ℚ))
    (h : filterByRegion S R = Except.ok out) : ∀ x ∈ out, x ∈ S := by
  unfold filterByRegion at h
  by_cases hl : R.length < 3
  · rw [if_pos hl] at h
    cases h
  · rw [if_neg hl] at h
    cases h
    intro x hx
    exact List.mem_of_mem_filter hx

/-- On a non-empty sample list both coordinate means are defined. -/
theorem bounds_nonempty (samples : List Sample) (hne : samples ≠ []) :
    ∃ mlat mlon : ℚ, overall_bounds samples = (some mlat, some mlon) := by
  unfold overall_bounds meanOpt
  rw [if_neg (by simpa using hne), if_neg (by simpa using hne)]
  exact ⟨_, _, rfl⟩

/-- Each generated sample's composition sums to exactly 100 with every
component in range, and its stored class is the classifier's verdict on its
own composition. -/
theorem gen_ok (sand silt : ℕ) (latOff lonOff acid ec : ℚ) (depth : ℤ)
    (h1 : sand < 100) (h2 : silt < 100 - sand) :
    (genSample sand silt latOff lonOff acid ec depth).sand +
      (genSample sand silt latOff lonOff acid ec depth).silt +
      (genSample sand silt latOff lonOff acid ec depth).clay = 100 ∧
    (0 ≤ (genSample sand silt latOff lonOff acid ec depth).sand ∧
      (genSample sand silt latOff lonOff acid ec depth).sand ≤ 100) ∧
    (0 ≤ (genSample sand silt latOff lonOff acid ec depth).silt ∧
      (genSample sand silt latOff lonOff acid ec depth).silt ≤ 100) ∧
    (0 ≤ (genSample sand silt latOff lonOff acid ec depth).clay ∧
      (genSample sand silt latOff lonOff acid ec depth).clay ≤ 100) ∧
    (genSample sand silt latOff lonOff acid ec depth).soil_type =
      determine_soil_type (genSample sand silt latOff lonOff acid ec depth).sand
        (genSample sand silt latOff lonOff acid ec depth).silt
        (genSample sand silt latOff lonOff acid ec depth).clay := by
  have hss : sand + silt < 100 := by omega
  refine ⟨?_, ⟨?_, ?_⟩, ⟨?_, ?_⟩, ⟨?_, ?_⟩, rfl⟩ <;> simp only [genSample]
  · ring
  · positivity
  · have : (sand : ℚ) < 100 := by exact_mod_cast h1
    linarith
  · positivity
  · have : (silt : ℚ) < 100 := by exact_mod_cast (by omega : silt < 100)
    linarith
  · have : (sand : ℚ) + (silt : ℚ) < 100 := by exact_mod_cast hss
    linarith
  · have h0s : (0 : ℚ) ≤ (sand : ℚ) := by positivity
    have h0si : (0 : ℚ) ≤ (silt : ℚ) := by positivity
    linarith

/-- Claim C1: the filter is claimed to hand the geometric test a point in
the same (longitude, latitude) axis order as the region's vertices.  The
code instead builds the point as (lat, lon) (`zip(points.lat, points.lon)`,
src/app.py line 151).  Evaluation at the failing input: `demoSample`
(lat 35.9, lon 50.9) lies inside `demoRegion` when tested in the region's
own (lon, lat) order, yet the code's test reports it outside and the filter
drops it. -/
theorem points_in_polygon_swaps_axes :
    points_in_polygon [demoSample] demoRegion = [false] ∧
    pointInPolygonRC (demoSample.lon, demoSample.lat) demoRegion = true ∧
    filterByRegion [demoSample] demoRegion = Except.ok [] :=
  ⟨by with_unfolding_all decide, by with_unfolding_all decide,
   by with_unfolding_all rfl⟩

/-- Claim C2 counterexample: `classify(30, 20, 51)` does not fail with
`InvalidCompositionError` — the code returns Clay (rule 3 fires), although
the composition sums to 101, one full point beyond the ±0.5 tolerance. -/
theorem classify_beyond_tolerance_returns_clay :
    determine_soil_type 30 20 51 = SoilType.clay ∧
    (30 + 20 + 51 : ℚ) = 101 := by
  with_unfolding_all decide

/-- Claim C2 (amended): `determine_soil_type` performs no composition
validation: every input triple, within tolerance of 100 or not, yields one
of the six texture classes, and `classify(30, 20, 51)` in particular yields
Clay rather than an error. -/
theorem classify_unvalidated_total :
    (∀ s si c : ℚ, determine_soil_type s si c ∈ allSoilTypes) ∧
    determine_soil_type 30 20 51 = SoilType.clay :=
  ⟨classify_total_cases, by with_unfolding_all decide⟩

/-- Claim C3 counterexample: `classify(40, 40, 20)` is not Loam — rule 5
(Silt Loam) fires before rule 6 for that input, because its sand is below
50, its silt in [28, 50) and its clay below 27. -/
theorem classify_40_40_20_is_silt_loam :
    determine_soil_type 40 40 20 = SoilType.siltLoam ∧
    determine_soil_type 40 40 20 ≠ SoilType.loam := by
  with_unfolding_all decide

/-- Claim C3 (amended): `classify(100, 0, 0)` is Sandy and
`classify(10, 10, 80)` is Clay as claimed, but `classify(40, 40, 20)` is
Silt Loam, rule 5 preceding rule 6 in the ladder. -/
theorem classify_boundary_examples :
    determine_soil_type 100 0 0 = SoilType.sandy ∧
    determine_soil_type 10 10 80 = SoilType.clay ∧
    determine_soil_type 40 40 20 = SoilType.siltLoam := by
  with_unfolding_all decide

/-- Claim C4: on every composition summing to 100 with each component in
[0, 100], the code's classifier ladder equals the spec's ordered
first-match-wins decision procedure (`spec_classify`, rules 1-7 with the
Loam default), and it returns one of the six defined classes — never a null
verdict. -/
theorem classify_matches_spec_procedure (s si c : ℚ) (hsum : s + si + c = 100)
    (hs0 : 0 ≤ s) (hs1 : s ≤ 100) (hsi0 : 0 ≤ si) (hsi1 : si ≤ 100)
    (hc0 : 0 ≤ c) (hc1 : c ≤ 100) :
    determine_soil_type s si c = spec_classify s si c ∧
    determine_soil_type s si c ∈ allSoilTypes :=
  ⟨classify_eq_spec s si c, classify_total_cases s si c⟩

/-- Claim C4 witness at the in-range composition (40, 40, 20). -/
theorem classify_matches_spec_procedure_witness :
    determine_soil_type 40 40 20 = spec_classify 40 40 20 ∧
    determine_soil_type 40 40 20 ∈ allSoilTypes :=
  classify_matches_spec_procedure 40 40 20 (by with_unfolding_all decide)
    (by with_unfolding_all decide) (by with_unfolding_all decide)
    (by with_unfolding_all decide) (by with_unfolding_all decide)
    (by with_unfolding_all decide) (by with_unfolding_all decide)

/-- Claim C5: for every sample sequence, filtering through a region of
fewer than three vertices fails with the invalid-region error. -/
theorem filter_rejects_degenerate_region (S : List Sample)
    (R : List (ℚ × ℚ)) (h : R.length < 3) :
    filterByRegion S R = Except.error RegionError.invalidRegion := by
  unfold filterByRegion
  rw [if_pos h]

/-- Claim C5 witness: a two-vertex region is rejected. -/
theorem filter_rejects_degenerate_region_witness :
    filterByRegion [] [((0 : ℚ), (0 : ℚ)), ((1 : ℚ), (1 : ℚ))] =
      Except.error RegionError.invalidRegion :=
  filter_rejects_degenerate_region [] _ (by decide)

/-- Claim C6 counterexample: `overall_bounds` on the empty sample sequence
does not fail — the code takes pandas means with no emptiness check and
returns the undefined (NaN, modelled `none`) pair. -/
theorem overall_bounds_empty_no_error :
    overall_bounds ([] : List Sample) = (none, none) := by
  with_unfolding_all decide

/-- Claim C6 (amended): `summarize` on an empty sample sequence returns the
empty mapping without failing, and `overall_bounds` on an empty sequence
also does not fail: it returns the NaN (undefined, `none`) pair, while on
any non-empty sequence both coordinate means are defined. -/
theorem summarize_empty_bounds_nan :
    summarize ([] : List Sample) = [] ∧
    overall_bounds ([] : List Sample) = (none, none) ∧
    (∀ samples : List Sample, samples ≠ [] →
      ∃ mlat mlon : ℚ, overall_bounds samples = (some mlat, some mlon)) :=
  ⟨rfl, by with_unfolding_all decide, bounds_nonempty⟩

/-- Claim C6 witness: on a one-sample list the bounds are defined. -/
theorem summarize_empty_bounds_nan_witness :
    ∃ mlat mlon : ℚ,
      overall_bounds [demoSample] = (some mlat, some mlon) :=
  summarize_empty_bounds_nan.2.2 [demoSample] (by with_unfolding_all decide)

/-- Claim C7: with a valid region (at least three vertices) the filter
succeeds and returns an order-preserving subsequence (sublist) of its
input, and filtering the empty sample sequence yields the empty sequence,
never an error. -/
theorem filter_order_preserving :
    (∀ (S : List Sample) (R : List (ℚ × ℚ)), 3 ≤ R.length →
      ∃ out, filterByRegion S R = Except.ok out ∧ out.Sublist S) ∧
    (∀ R : List (ℚ × ℚ), 3 ≤ R.length → filterByRegion [] R = Except.ok []) :=
  ⟨filter_ok, filter_empty⟩

/-- Claim C7 witness at a concrete sample list and four-vertex region. -/
theorem filter_order_preserving_witness :
    ∃ out, filterByRegion clay3 demoRegion = Except.ok out ∧
      out.Sublist clay3 :=
  filter_order_preserving.1 clay3 demoRegion (by with_unfolding_all decide)

/-- Claim C8: every summary row keys a stored class actually present, with
the group's size as its positive count and the group's arithmetic mean of
each of the three numeric fields — acidity, conductivity and depth (each
mean times the count recovers the corresponding group sum); classes with no
samples get no row; and three Clay samples with acidity 6, 7, 8 yield
exactly one Clay row with count 3 and mean acidity 7. -/
theorem summarize_groups_and_means :
    (∀ samples : List Sample, samples ≠ [] →
      ∀ (t : SoilType) (summ : ClassSummary), (t, summ) ∈ summarize samples →
        0 < summ.count ∧
        summ.count = (samples.filter (fun s => s.soil_type = t)).length ∧
        summ.mean_acidity * (summ.count : ℚ) =
          ((samples.filter (fun s => s.soil_type = t)).map
            Sample.acidity).sum ∧
        summ.mean_conductivity * (summ.count : ℚ) =
          ((samples.filter (fun s => s.soil_type = t)).map
            Sample.conductivity).sum ∧
        summ.mean_depth * (summ.count : ℚ) =
          ((samples.filter (fun s => s.soil_type = t)).map
            (fun s => (s.depth : ℚ))).sum) ∧
    (∀ (samples : List Sample) (t : SoilType),
      (∃ summ, (t, summ) ∈ summarize samples) ↔
        t ∈ samples.map Sample.soil_type) ∧
    summarize clay3 = [(SoilType.clay, ⟨3, 7, 2, 100⟩)] :=
  ⟨summarize_sound, summarize_complete, by with_unfolding_all decide⟩

/-- Claim C8 witness: the Clay row of the three-Clay-sample list, checked
against the general soundness statement for all three numeric means. -/
theorem summarize_groups_and_means_witness :
    0 < (3 : ℕ) ∧
    (3 : ℕ) = (clay3.filter (fun s => s.soil_type = SoilType.clay)).length ∧
    (7 : ℚ) * ((3 : ℕ) : ℚ) =
      ((clay3.filter (fun s => s.soil_type = SoilType.clay)).map
        Sample.acidity).sum ∧
    (2 : ℚ) * ((3 : ℕ) : ℚ) =
      ((clay3.filter (fun s => s.soil_type = SoilType.clay)).map
        Sample.conductivity).sum ∧
    (100 : ℚ) * ((3 : ℕ) : ℚ) =
      ((clay3.filter (fun s => s.soil_type = SoilType.clay)).map
        (fun s => (s.depth : ℚ))).sum :=
  summarize_groups_and_means.1 clay3 (by with_unfolding_all decide)
    SoilType.clay ⟨3, 7, 2, 100⟩ (by with_unfolding_all decide)

/-- Claim C9: every generated sample's composition sums to exactly 100 with
each component in [0, 100], its stored texture class is the classifier's
verdict on its own composition, and filtering (the only other producer of
sample sequences) returns only samples of its input, so the round-trip
invariant holds system-wide. -/
theorem generator_roundtrip_invariant :
    (∀ (sand silt : ℕ) (latOff lonOff acid ec : ℚ) (depth : ℤ),
      sand < 100 → silt < 100 - sand →
      (genSample sand silt latOff lonOff acid ec depth).sand +
        (genSample sand silt latOff lonOff acid ec depth).silt +
        (genSample sand silt latOff lonOff acid ec depth).clay = 100 ∧
      (0 ≤ (genSample sand silt latOff lonOff acid ec depth).sand ∧
        (genSample sand silt latOff lonOff acid ec depth).sand ≤ 100) ∧
      (0 ≤ (genSample sand silt latOff lonOff acid ec depth).silt ∧
        (genSample sand silt latOff lonOff acid ec depth).silt ≤ 100) ∧
      (0 ≤ (genSample sand silt latOff lonOff acid ec depth).clay ∧
        (genSample sand silt latOff lonOff acid ec depth).clay ≤ 100) ∧
      (genSample sand silt latOff lonOff acid ec depth).soil_type =
        determine_soil_type
          (genSample sand silt latOff lonOff acid ec depth).sand
          (genSample sand silt latOff lonOff acid ec depth).silt
          (genSample sand silt latOff lonOff acid ec depth).clay) ∧
    (∀ (S out : List Sample) (R : List (ℚ × ℚ)),
      filterByRegion S R = Except.ok out → ∀ x ∈ out, x ∈ S) :=
  ⟨gen_ok, filter_mem⟩

/-- Claim C9 witness at the draws sand = 50, silt = 30. -/
theorem generator_roundtrip_invariant_witness :
    (genSample 50 30 0 0 7 2 100).sand + (genSample 50 30 0 0 7 2 100).silt +
      (genSample 50 30 0 0 7 2 100).clay = 100 ∧
    (0 ≤ (genSample 50 30 0 0 7 2 100).sand ∧
      (genSample 50 30 0 0 7 2 100).sand ≤ 100) ∧
    (0 ≤ (genSample 50 30 0 0 7 2 100).silt ∧
      (genSample 50 30 0 0 7 2 100).silt ≤ 100) ∧
    (0 ≤ (genSample 50 30 0 0 7 2 100).clay ∧
      (genSample 50 30 0 0 7 2 100).clay ≤ 100) ∧
    (genSample 50 30 0 0 7 2 100).soil_type =
      determine_soil_type (genSample 50 30 0 0 7 2 100).sand
        (genSample 50 30 0 0 7 2 100).silt
        (genSample 50 30 0 0 7 2 100).clay :=
  generator_roundtrip_invariant.1 50 30 0 0 7 2 100 (by decide) (by decide)

/-- Claim C10: rule 5 shadows rule 6 for low-sand inputs — whenever sand is
below 50, silt in [28, 50) and clay in [7, 27) (in particular whenever all
of rule 6's bounds hold with sand below 50), the verdict is Silt Loam; and
a Loam verdict arises only from rule 6 with sand in [50, 52) or from the
rule-7 default where no rule condition holds. -/
theorem rule5_shadows_rule6 :
    (∀ s si c : ℚ, s < 50 → 28 ≤ si → si < 50 → 7 ≤ c → c < 27 →
      determine_soil_type s si c = SoilType.siltLoam) ∧
    (∀ s si c : ℚ, determine_soil_type s si c = SoilType.loam →
      (50 ≤ s ∧ s < 52 ∧ 28 ≤ si ∧ si < 50 ∧ 7 ≤ c ∧ c < 27) ∨
      (¬ rule1Cond s si c ∧ ¬ rule2Cond s si c ∧ ¬ rule3Cond s si c ∧
       ¬ rule4Cond s si c ∧ ¬ rule5Cond s si c ∧ ¬ rule6Cond s si c)) :=
  ⟨shadow_silt_loam, shadow_loam_source⟩

/-- Claim C10 witness: the low-sand composition (30, 40, 20) meets rule 6's
bounds yet is classified Silt Loam. -/
theorem rule5_shadows_rule6_witness :
    determine_soil_type 30 40 20 = SoilType.siltLoam :=
  rule5_shadows_rule6.1 30 40 20 (by with_unfolding_all decide)
    (by with_unfolding_all decide) (by with_unfolding_all decide)
    (by with_unfolding_all decide) (by with_unfolding_all decide)

end SoilWSS
